import Mathlib

/-!
Verification of the geocoding façade in `src/main.py` (a FastAPI wrapper
around the Photon geocoding service).

The embedding models:
  * JSON values (`Json`), with Python-style subscripting (`Json.index`,
    `Json.indexNat`), `dict.get` (`Json.get`), truthiness (`Json.falsy`)
    and iteration (`pyIter`);
  * the upstream HTTP call as an oracle `Upstream : HttpRequest → HttpResult`
    supplied as an explicit argument (the code opens a fresh `httpx.Client`
    and performs exactly one GET per call);
  * the three client functions `search_place`, `search_with_location`,
    `reverse_geocode` with their shared `try/except` structure: a first
    clause catching `httpx.HTTPStatusError`, and a second clause
    `except Exception` that also catches FastAPI `HTTPException` values
    raised inside the `try` body (starlette's `HTTPException` is a subclass
    of `Exception`, and `str(e)` is `f"(status_code): (detail)"`);
  * the six route handlers, returning an `Outcome` that distinguishes a
    normal body, a structured `HTTPException` response, an uncaught
    exception escaping the handler (`crash`), and FastAPI's rejection of a
    request missing a required parameter (`validationError`).

Numbers carry `Int`: the source performs no arithmetic on any value --
`lat`/`lon`/`limit` and all feature contents are passed through opaquely --
so the carrier of numeric literals is irrelevant to every property proved
here.
-/

/-- A JSON value, as decoded by `response.json()`.  Objects are ordered
key/value lists (Python dicts preserve insertion order; keys of a decoded
JSON object are unique). -/
inductive Json where
  | null : Json
  | bool (b : Bool) : Json
  | num (n : Int) : Json
  | str (s : String) : Json
  | arr (xs : List Json) : Json
  | obj (kvs : List (String × Json)) : Json

namespace Json

/-- Python subscripting `j[k]` with a string key: a `KeyError` on a dict
without the key, a `TypeError` on anything that is not a dict. -/
def index (j : Json) (k : String) : Except String Json :=
  match j with
  | .obj kvs =>
    match kvs.lookup k with
    | some v => .ok v
    | none => .error ("KeyError: " ++ k)
  | _ => .error "TypeError: object is not subscriptable by str"

/-- Python subscripting `j[i]` with an integer index (used for
`features[0]`). -/
def indexNat (j : Json) (i : Nat) : Except String Json :=
  match j with
  | .arr xs =>
    match xs.get? i with
    | some v => .ok v
    | none => .error "IndexError: list index out of range"
  | .str s =>
    match s.toList.get? i with
    | some c => .ok (.str (String.singleton c))
    | none => .error "IndexError: string index out of range"
  | _ => .error "TypeError: object is not subscriptable by int"

/-- Python `j.get(k)`: `None` when the key is absent from the dict, an
`AttributeError` when `j` is not a dict. -/
def get (j : Json) (k : String) : Except String Json :=
  match j with
  | .obj kvs => .ok ((kvs.lookup k).getD Json.null)
  | _ => .error "AttributeError: object has no attribute get"

/-- Python truthiness of a JSON value (`if not features:`). -/
def falsy : Json → Bool
  | .null => true
  | .bool b => !b
  | .num n => n == 0
  | .str s => s == ""
  | .arr xs => xs.isEmpty
  | .obj kvs => kvs.isEmpty

end Json

/-- Python `for x in j`: lists iterate elements, dicts iterate keys,
strings iterate one-character strings, everything else is a `TypeError`. -/
def pyIter : Json → Except String (List Json)
  | .arr xs => .ok xs
  | .obj kvs => .ok (kvs.map (fun kv => Json.str kv.fst))
  | .str s => .ok (s.toList.map (fun c => Json.str (String.singleton c)))
  | _ => .error "TypeError: object is not iterable"

/-- One outbound GET: the URL and the assembled query parameters. -/
structure HttpRequest where
  url : String
  params : List (String × Json)

/-- The result of one `client.get(...)` call: either a decoded HTTP
response (whose body decoding by `response.json()` may itself fail), or an
exception raised by the transport (connection failure, timeout, ...). -/
inductive HttpResult where
  | response (status : Nat) (body : Except String Json) : HttpResult
  | failure (msg : String) : HttpResult

/-- The upstream service, as observed through single GET calls. -/
abbrev Upstream := HttpRequest → HttpResult

/-- `fastapi.HTTPException`: a status code plus a detail message. -/
structure HTTPException where
  status_code : Nat
  detail : String

/-- `str(e)` for a starlette/FastAPI `HTTPException`:
`f"(status_code): (detail)"`. -/
def strHTTPException (e : HTTPException) : String :=
  toString e.status_code ++ ": " ++ e.detail

/-- An exception escaping the `try` body of one of the three client
functions, classified the way the `except` clauses discriminate:
`httpx.HTTPStatusError`, FastAPI `HTTPException` (a subclass of
`Exception`, hence caught by `except Exception`), or any other
`Exception`. -/
inductive PyErr where
  | httpStatusError (status : Nat) (text : String) : PyErr
  | httpException (e : HTTPException) : PyErr
  | other (text : String) : PyErr

/-- Lift a plain Python exception (`KeyError`, `TypeError`, ...) into the
classification. -/
def liftPy : Except String Json → Except PyErr Json
  | .ok v => .ok v
  | .error m => .error (.other m)

/-- `response.is_success`: the 2xx range (httpx `raise_for_status` raises
on every non-2xx status). -/
def is_success (status : Nat) : Bool :=
  200 ≤ status && status < 300

/-- The message carried by an `httpx.HTTPStatusError` (its exact text,
built by httpx from the status line and URL, is opaque to the source; only
the status code it is built from matters to any property here). -/
def httpStatusErrorText (status : Nat) : String :=
  "HTTP status error for status " ++ toString status

def BASE_URL : String := "https://photon.komoot.io"

/-- Lines 47-49 / 64-66 / 80-82: open a client, GET, `raise_for_status()`,
decode the body with `response.json()`. -/
def runUpstream (http : Upstream) (url : String)
    (params : List (String × Json)) : Except PyErr Json :=
  match http ⟨url, params⟩ with
  | .failure msg => .error (.other msg)
  | .response status body =>
    if is_success status then
      match body with
      | .ok j => .ok j
      | .error msg => .error (.other msg)
    else
      .error (.httpStatusError status (httpStatusErrorText status))

/-- The two `except` clauses shared verbatim by all three client
functions: `httpx.HTTPStatusError` becomes an `HTTPException` with the
upstream's own status code, every other `Exception` — including an
`HTTPException` raised inside the `try` body — becomes a 500. -/
def handleExcept : Except PyErr Json → Except HTTPException Json
  | .ok v => .ok v
  | .error (.httpStatusError st text) =>
    .error ⟨st, "Geocoding service error: " ++ text⟩
  | .error (.httpException e) =>
    .error ⟨500, "Unexpected error: " ++ strHTTPException e⟩
  | .error (.other text) =>
    .error ⟨500, "Unexpected error: " ++ text⟩

/-- Lines 40-44: the query parameters of `search_place`.  Note the Python
truthiness tests `if limit:` and `if lang:`: `limit=0` and `lang=""` are
dropped exactly like `None`. -/
def search_place_params (query : String) (limit : Option Int)
    (lang : Option String) : List (String × Json) :=
  let params := [("q", Json.str query)]
  let params :=
    match limit with
    | some n => if n ≠ 0 then params ++ [("limit", Json.num n)] else params
    | none => params
  match lang with
  | some s => if s ≠ "" then params ++ [("lang", Json.str s)] else params
  | none => params

/-- Lines 38-54: `search_place`. -/
def search_place (query : String) (limit : Option Int)
    (lang : Option String) (http : Upstream) : Except HTTPException Json :=
  handleExcept (do
    let j ← runUpstream http (BASE_URL ++ "/api/")
      (search_place_params query limit lang)
    liftPy (j.index "features"))

/-- Lines 58-62: the query parameters of `search_with_location` — `q`,
`lat`, `lon`, all unconditionally present. -/
def search_with_location_params (query : String) (lat lon : Int) :
    List (String × Json) :=
  [("q", Json.str query), ("lat", Json.num lat), ("lon", Json.num lon)]

/-- Lines 56-71: `search_with_location`. -/
def search_with_location (query : String) (lat lon : Int)
    (http : Upstream) : Except HTTPException Json :=
  handleExcept (do
    let j ← runUpstream http (BASE_URL ++ "/api/")
      (search_with_location_params query lat lon)
    liftPy (j.index "features"))

/-- Lines 75-78: the query parameters of `reverse_geocode`. -/
def reverse_geocode_params (lat lon : Int) : List (String × Json) :=
  [("lat", Json.num lat), ("lon", Json.num lon)]

/-- Lines 73-90: `reverse_geocode`.  The `HTTPException(404)` raised when
`features` is falsy is raised inside the `try` body, so it reaches
`handleExcept` as a `PyErr.httpException` — where the `except Exception`
clause converts it into a 500. -/
def reverse_geocode (lat lon : Int) (http : Upstream) :
    Except HTTPException Json :=
  handleExcept (do
    let j ← runUpstream http (BASE_URL ++ "/reverse")
      (reverse_geocode_params lat lon)
    let features ← liftPy (j.index "features")
    if features.falsy then
      .error (.httpException ⟨404, "No location found for the given coordinates"⟩)
    else do
      let f0 ← liftPy (features.indexNat 0)
      liftPy (f0.index "properties"))

/-- Lines 17-20: the `/search` POST request model. -/
structure PlaceSearchRequest where
  query : String
  limit : Option Int
  lang : Option String

/-- Lines 22-25: the `/search/location` POST request model. -/
structure LocationSearchRequest where
  query : String
  lat : Int
  lon : Int

/-- Lines 27-29: the `/reverse` POST request model. -/
structure ReverseGeocodeRequest where
  lat : Int
  lon : Int

/-- Lines 31-35: the `PlaceResponse` model.  `name` and `country` are the
values of `props.get(...)` (JSON null when absent), `coordinates` and
`properties` the subscripted values, all passed through verbatim. -/
structure PlaceResponse where
  name : Json
  country : Json
  coordinates : Json
  properties : Json

/-- Lines 118-126 (repeated verbatim at 146-154, 170-178, 198-206): build
one `PlaceResponse` from one feature.  Both subscript accesses
(`feature["properties"]`, `feature["geometry"]["coordinates"]`) and the
two `.get` calls happen in the handler, outside any `try` block: a failure
is an uncaught exception. -/
def projectFeature (feature : Json) : Except String PlaceResponse := do
  let props ← feature.index "properties"
  let geom ← feature.index "geometry"
  let coords ← geom.index "coordinates"
  let name ← props.get "name"
  let country ← props.get "country"
  .ok ⟨name, country, coords, props⟩

/-- The handler loop `for feature in features: ... results.append(...)`
over an already-materialised list, accumulating in order. -/
def projectList : List Json → Except String (List PlaceResponse)
  | [] => .ok []
  | f :: fs => do
    let r ← projectFeature f
    let rs ← projectList fs
    .ok (r :: rs)

/-- `results = []; for feature in features: ...` applied to the value
`search_place`/`search_with_location` returned (`for` first iterates it,
a `TypeError` if it is not iterable). -/
def projectFeatures (features : Json) : Except String (List PlaceResponse) := do
  let fs ← pyIter features
  projectList fs

/-- What the caller of a search-family endpoint observes. -/
inductive SearchOutcome where
  /-- 200 with the serialised list of `PlaceResponse` values. -/
  | ok (results : List PlaceResponse) : SearchOutcome
  /-- A structured error response raised as `HTTPException`. -/
  | httpError (status_code : Nat) (detail : String) : SearchOutcome
  /-- An exception escaped the handler untranslated. -/
  | crash (msg : String) : SearchOutcome
  /-- FastAPI rejected the request before invoking the handler (a required
  query parameter is missing). -/
  | validationError : SearchOutcome

/-- What the caller of a `/reverse` endpoint observes. -/
inductive ReverseOutcome where
  /-- 200 with the returned mapping, serialised as-is. -/
  | ok (body : Json) : ReverseOutcome
  /-- A structured error response raised as `HTTPException`. -/
  | httpError (status_code : Nat) (detail : String) : ReverseOutcome
  /-- FastAPI rejected the request before invoking the handler. -/
  | validationError : ReverseOutcome

/-- The shared shape of the four search-family handler bodies: call the
client function, then run the projection loop; an `HTTPException` raised
by the client function propagates as the structured response, a failure of
the unguarded projection escapes the handler. -/
def searchHandlerBody (r : Except HTTPException Json) : SearchOutcome :=
  match r with
  | .error e => .httpError e.status_code e.detail
  | .ok features =>
    match projectFeatures features with
    | .ok results => .ok results
    | .error msg => .crash msg

/-- Lines 106-128: POST `/search`. -/
def search_places (request : PlaceSearchRequest) (http : Upstream) :
    SearchOutcome :=
  searchHandlerBody (search_place request.query request.limit request.lang http)

/-- Lines 130-156: GET `/search`.  `query` is declared `Query(...)`
(required): FastAPI rejects the request when it is absent; `limit` and
`lang` default to `None`. -/
def search_places_get (query : Option String) (limit : Option Int)
    (lang : Option String) (http : Upstream) : SearchOutcome :=
  match query with
  | none => .validationError
  | some q => searchHandlerBody (search_place q limit lang http)

/-- Lines 158-180: POST `/search/location`. -/
def search_with_location_priority (request : LocationSearchRequest)
    (http : Upstream) : SearchOutcome :=
  searchHandlerBody
    (search_with_location request.query request.lat request.lon http)

/-- Lines 182-208: GET `/search/location`.  `query`, `lat` and `lon` are
all declared `Query(...)` (required): FastAPI rejects the request when any
is absent, without invoking the handler. -/
def search_with_location_priority_get (query : Option String)
    (lat lon : Option Int) (http : Upstream) : SearchOutcome :=
  match query, lat, lon with
  | some q, some la, some lo =>
    searchHandlerBody (search_with_location q la lo http)
  | _, _, _ => .validationError

/-- Lines 210-218: POST `/reverse`. -/
def reverse_geocode_endpoint (request : ReverseGeocodeRequest)
    (http : Upstream) : ReverseOutcome :=
  match reverse_geocode request.lat request.lon http with
  | .ok body => .ok body
  | .error e => .httpError e.status_code e.detail

/-- Lines 220-231: GET `/reverse`.  `lat` and `lon` are declared
`Query(...)` (required). -/
def reverse_geocode_endpoint_get (lat lon : Option Int)
    (http : Upstream) : ReverseOutcome :=
  match lat, lon with
  | some la, some lo =>
    match reverse_geocode la lo http with
    | .ok body => .ok body
    | .error e => .httpError e.status_code e.detail
  | _, _ => .validationError

/-!  Helper lemmas about the projection. -/

/-- `Except` bind on a success reduces to the continuation. -/
theorem bindOk {ε α β : Type} (a : α) (f : α → Except ε β) :
    (Except.ok a >>= f) = f a := rfl

/-- `Except` bind on an error short-circuits. -/
theorem bindError {ε α β : Type} (e : ε) (f : α → Except ε β) :
    ((Except.error e : Except ε α) >>= f) = Except.error e := rfl

/-- A feature of the shape the data model prescribes: a `properties`
object and `geometry.coordinates`. -/
def FeatureShape (f : Json) : Prop :=
  ∃ pkvs geom coords, f.index "properties" = .ok (Json.obj pkvs)
    ∧ f.index "geometry" = .ok geom
    ∧ geom.index "coordinates" = .ok coords

/-- On a feature of the prescribed shape the projection succeeds, reading
`name`/`country` out of the properties (null when absent), taking the
coordinates verbatim and copying the whole properties object. -/
theorem projectFeature_eq_of_shape (f : Json) (pkvs : List (String × Json))
    (geom coords : Json)
    (hp : f.index "properties" = .ok (Json.obj pkvs))
    (hg : f.index "geometry" = .ok geom)
    (hc : geom.index "coordinates" = .ok coords) :
    projectFeature f = .ok ⟨(pkvs.lookup "name").getD .null,
      (pkvs.lookup "country").getD .null, coords, Json.obj pkvs⟩ := by
  simp [projectFeature, hp, hg, hc, Json.get, bindOk]

/-- Whenever the projection succeeds, the result's `properties` field is
exactly the value of `feature["properties"]`. -/
theorem projectFeature_properties (f : Json) (r : PlaceResponse)
    (h : projectFeature f = .ok r) : f.index "properties" = .ok r.properties := by
  unfold projectFeature at h
  cases hp : f.index "properties" with
  | error m => rw [hp] at h; simp [bindError] at h
  | ok props =>
    rw [hp] at h; simp only [bindOk] at h
    cases hg : f.index "geometry" with
    | error m => rw [hg] at h; simp [bindError] at h
    | ok geom =>
      rw [hg] at h; simp only [bindOk] at h
      cases hc : geom.index "coordinates" with
      | error m => rw [hc] at h; simp [bindError] at h
      | ok coords =>
        rw [hc] at h; simp only [bindOk] at h
        cases hn : props.get "name" with
        | error m => rw [hn] at h; simp [bindError] at h
        | ok name =>
          rw [hn] at h; simp only [bindOk] at h
          cases hcy : props.get "country" with
          | error m => rw [hcy] at h; simp [bindError] at h
          | ok country =>
            rw [hcy] at h; simp only [bindOk] at h
            simp only [Except.ok.injEq] at h
            subst h
            rfl

/-- When every feature projects, the loop returns one result per feature,
in order. -/
theorem projectList_of_all_ok (fs : List Json)
    (h : ∀ f ∈ fs, ∃ r, projectFeature f = .ok r) :
    ∃ rs, projectList fs = .ok rs ∧ rs.length = fs.length ∧
      ∀ (i : Nat) (hi : i < fs.length) (hi' : i < rs.length),
        projectFeature (fs.get ⟨i, hi⟩) = .ok (rs.get ⟨i, hi'⟩) := by
  induction fs with
  | nil =>
    exact ⟨[], rfl, rfl, fun i hi => absurd hi (Nat.not_lt_zero i)⟩
  | cons f fs ih =>
    obtain ⟨r, hr⟩ := h f (List.mem_cons_self f fs)
    obtain ⟨rs, hrs, hlen, hpt⟩ := ih (fun g hg => h g (List.mem_cons_of_mem f hg))
    refine ⟨r :: rs, ?_, by simp [hlen], ?_⟩
    · simp [projectList, hr, hrs, bindOk]
    · intro i hi hi'
      cases i with
      | zero => simpa using hr
      | succ n =>
        exact hpt n (Nat.lt_of_succ_lt_succ hi) (Nat.lt_of_succ_lt_succ hi')

/-- If some member of the list fails to project, the whole loop raises. -/
theorem projectList_error_of_mem (fs : List Json) (f : Json)
    (hmem : f ∈ fs) (hbad : ∃ m, projectFeature f = .error m) :
    ∃ m, projectList fs = .error m := by
  induction fs with
  | nil => cases hmem
  | cons g gs ih =>
    cases hg : projectFeature g with
    | error m => exact ⟨m, by simp [projectList, hg, bindError]⟩
    | ok r =>
      rcases List.mem_cons.mp hmem with heq | hmem'
      · obtain ⟨m, hm⟩ := hbad
        rw [← heq] at hg; rw [hg] at hm; cases hm
      · obtain ⟨m, hm⟩ := ih hmem'
        exact ⟨m, by simp [projectList, hg, hm, bindOk, bindError]⟩

/-- The handler body on a successful upstream feature list is determined
by the projection loop. -/
theorem searchHandlerBody_ok_arr (fs : List Json) (rs : List PlaceResponse)
    (h : projectList fs = .ok rs) :
    searchHandlerBody (.ok (Json.arr fs)) = .ok rs := by
  simp [searchHandlerBody, projectFeatures, pyIter, h, bindOk]

/-- The handler body crashes when the projection loop raises. -/
theorem searchHandlerBody_crash_arr (fs : List Json) (m : String)
    (h : projectList fs = .error m) :
    searchHandlerBody (.ok (Json.arr fs)) = .crash m := by
  simp [searchHandlerBody, projectFeatures, pyIter, h, bindOk]

/-!  The claims. -/

/-- C1: the claim says a reverse-geocode request whose upstream call
succeeds with an empty feature list yields the distinct 404
"no location found" response, never the generic 500 path.  The code
violates this: the `HTTPException(404)` is raised inside the `try` body of
`reverse_geocode` and is a subclass of `Exception`, so the function's own
`except Exception` clause catches it and re-raises it as the generic
`HTTPException(500, "Unexpected error: ...")`.  This theorem evaluates the
code at such an input: upstream answers 200 with `{"features": []}` and
the caller receives 500 through the generic error path, the 404 surviving
only as text embedded in the detail. -/
theorem C1_reverse_empty_features_bug :
    reverse_geocode 52 13
        (fun _ => .response 200 (.ok (Json.obj [("features", Json.arr [])])))
      = .error ⟨500, "Unexpected error: 404: No location found for the given coordinates"⟩
    ∧ reverse_geocode_endpoint ⟨52, 13⟩
        (fun _ => .response 200 (.ok (Json.obj [("features", Json.arr [])])))
      = .httpError 500 "Unexpected error: 404: No location found for the given coordinates" :=
  ⟨rfl, rfl⟩

/-- C3: for every feature of the prescribed shape, the projection reads
`properties.name` and `properties.country` (null when the key is absent,
the field never omitted and no error raised), takes
`geometry.coordinates` verbatim as the result's coordinates, and copies
the full properties mapping into the result. -/
theorem C3_projection_reads_fields (f : Json) (pkvs : List (String × Json))
    (geom coords : Json)
    (hp : f.index "properties" = .ok (Json.obj pkvs))
    (hg : f.index "geometry" = .ok geom)
    (hc : geom.index "coordinates" = .ok coords) :
    ∃ r, projectFeature f = .ok r
      ∧ r.name = (pkvs.lookup "name").getD Json.null
      ∧ r.country = (pkvs.lookup "country").getD Json.null
      ∧ (pkvs.lookup "name" = none → r.name = Json.null)
      ∧ (pkvs.lookup "country" = none → r.country = Json.null)
      ∧ r.coordinates = coords
      ∧ r.properties = Json.obj pkvs := by
  refine ⟨_, projectFeature_eq_of_shape f pkvs geom coords hp hg hc,
    rfl, rfl, ?_, ?_, rfl, rfl⟩
  · intro h; simp [h]
  · intro h; simp [h]

/-- Witness for C3: a feature whose properties object has neither `name`
nor `country` projects to null fields, verbatim coordinates and the copied
(empty) properties object. -/
theorem C3_witness :
    ∃ r, projectFeature (Json.obj [("properties", Json.obj []),
        ("geometry", Json.obj [("coordinates",
          Json.arr [Json.num 13, Json.num 52])])]) = .ok r
      ∧ r.name = Json.null ∧ r.country = Json.null
      ∧ r.coordinates = Json.arr [Json.num 13, Json.num 52]
      ∧ r.properties = Json.obj [] := by
  obtain ⟨r, h1, _, _, h4, h5, h6, h7⟩ :=
    C3_projection_reads_fields
      (Json.obj [("properties", Json.obj []),
        ("geometry", Json.obj [("coordinates",
          Json.arr [Json.num 13, Json.num 52])])])
      [] (Json.obj [("coordinates", Json.arr [Json.num 13, Json.num 52])])
      (Json.arr [Json.num 13, Json.num 52]) rfl rfl rfl
  exact ⟨r, h1, h4 rfl, h5 rfl, h6, h7⟩

/-- C9: each GET endpoint variant, once FastAPI's required-parameter
validation has passed, invokes the same client function and the same
projection as the POST variant with the same arguments, so the two
variants of each of the three operations agree on every input and every
upstream behaviour. -/
theorem C9_get_post_equivalence (q : String) (lim : Option Int)
    (lang : Option String) (lat lon : Int) (http : Upstream) :
    search_places_get (some q) lim lang http
        = search_places ⟨q, lim, lang⟩ http
    ∧ search_with_location_priority_get (some q) (some lat) (some lon) http
        = search_with_location_priority ⟨q, lat, lon⟩ http
    ∧ reverse_geocode_endpoint_get (some lat) (some lon) http
        = reverse_geocode_endpoint ⟨lat, lon⟩ http :=
  ⟨rfl, rfl, rfl⟩

/-- C2: for every search-family request whose upstream call succeeds with
a list of features of the prescribed shape, the endpoint returns exactly
one `PlaceResponse` per feature, in order, and the i-th result's
`properties` field is exactly the i-th feature's properties mapping. -/
theorem C2_result_count_and_properties (req : PlaceSearchRequest)
    (reqL : LocationSearchRequest) (http : Upstream) (fs fsL : List Json)
    (h : search_place req.query req.limit req.lang http = .ok (Json.arr fs))
    (hL : search_with_location reqL.query reqL.lat reqL.lon http
      = .ok (Json.arr fsL))
    (hwf : ∀ f ∈ fs, FeatureShape f)
    (hwfL : ∀ f ∈ fsL, FeatureShape f) :
    (∃ rs, search_places req http = .ok rs ∧ rs.length = fs.length ∧
      ∀ (i : Nat) (hi : i < fs.length) (hi' : i < rs.length),
        (fs.get ⟨i, hi⟩).index "properties"
          = .ok ((rs.get ⟨i, hi'⟩).properties))
    ∧ (∃ rs, search_with_location_priority reqL http = .ok rs
        ∧ rs.length = fsL.length ∧
      ∀ (i : Nat) (hi : i < fsL.length) (hi' : i < rs.length),
        (fsL.get ⟨i, hi⟩).index "properties"
          = .ok ((rs.get ⟨i, hi'⟩).properties)) := by
  have key : ∀ (gs : List Json), (∀ f ∈ gs, FeatureShape f) →
      ∃ rs, projectList gs = .ok rs ∧ rs.length = gs.length ∧
        ∀ (i : Nat) (hi : i < gs.length) (hi' : i < rs.length),
          (gs.get ⟨i, hi⟩).index "properties"
            = .ok ((rs.get ⟨i, hi'⟩).properties) := by
    intro gs hgs
    obtain ⟨rs, hrs, hlen, hpt⟩ := projectList_of_all_ok gs (fun f hf => by
      obtain ⟨pkvs, geom, coords, hp, hg, hc⟩ := hgs f hf
      exact ⟨_, projectFeature_eq_of_shape f pkvs geom coords hp hg hc⟩)
    exact ⟨rs, hrs, hlen,
      fun i hi hi' => projectFeature_properties _ _ (hpt i hi hi')⟩
  constructor
  · obtain ⟨rs, hrs, hlen, hpt⟩ := key fs hwf
    refine ⟨rs, ?_, hlen, hpt⟩
    unfold search_places
    rw [h]
    exact searchHandlerBody_ok_arr fs rs hrs
  · obtain ⟨rs, hrs, hlen, hpt⟩ := key fsL hwfL
    refine ⟨rs, ?_, hlen, hpt⟩
    unfold search_with_location_priority
    rw [hL]
    exact searchHandlerBody_ok_arr fsL rs hrs

/-- Witness for C2: with an upstream answering one well-formed feature,
both the `/search` and the `/search/location` POST endpoints return a
one-element result list. -/
theorem C2_witness :
    (∃ rs, search_places ⟨"Berlin", some 2, none⟩
        (fun _ => .response 200 (.ok (Json.obj [("features", Json.arr
          [Json.obj [("properties", Json.obj [("name", Json.str "Berlin")]),
            ("geometry", Json.obj [("coordinates",
              Json.arr [Json.num 13, Json.num 52])])]])])))
        = SearchOutcome.ok rs ∧ rs.length = 1)
    ∧ (∃ rs, search_with_location_priority ⟨"Berlin", 52, 13⟩
        (fun _ => .response 200 (.ok (Json.obj [("features", Json.arr
          [Json.obj [("properties", Json.obj [("name", Json.str "Berlin")]),
            ("geometry", Json.obj [("coordinates",
              Json.arr [Json.num 13, Json.num 52])])]])])))
        = SearchOutcome.ok rs ∧ rs.length = 1) := by
  have hwf1 : ∀ f ∈ [Json.obj [("properties",
        Json.obj [("name", Json.str "Berlin")]),
      ("geometry", Json.obj [("coordinates",
        Json.arr [Json.num 13, Json.num 52])])]], FeatureShape f := by
    intro f hf
    rw [List.mem_singleton] at hf
    subst hf
    exact ⟨[("name", Json.str "Berlin")],
      Json.obj [("coordinates", Json.arr [Json.num 13, Json.num 52])],
      Json.arr [Json.num 13, Json.num 52], rfl, rfl, rfl⟩
  obtain ⟨⟨rs1, h1, hlen1, _⟩, ⟨rs2, h2, hlen2, _⟩⟩ :=
    C2_result_count_and_properties ⟨"Berlin", some 2, none⟩ ⟨"Berlin", 52, 13⟩
      (fun _ => .response 200 (.ok (Json.obj [("features", Json.arr
        [Json.obj [("properties", Json.obj [("name", Json.str "Berlin")]),
          ("geometry", Json.obj [("coordinates",
            Json.arr [Json.num 13, Json.num 52])])]])])))
      _ _ rfl rfl hwf1 hwf1
  exact ⟨⟨rs1, h1, hlen1⟩, ⟨rs2, h2, hlen2⟩⟩

/-- C10: the per-feature subscript accesses `feature["properties"]` and
`feature["geometry"]["coordinates"]` run in the handler, outside the
client function's `try`/`except`: when the upstream call succeeds but some
feature lacks those keys, the endpoint fails with an uncaught exception
rather than the structured 500 "Unexpected error" response. -/
theorem C10_unguarded_projection_crash (req : PlaceSearchRequest)
    (http : Upstream) (fs : List Json) (f : Json) (m : String)
    (h : search_place req.query req.limit req.lang http = .ok (Json.arr fs))
    (hmem : f ∈ fs)
    (hbad : f.index "properties" = .error m
      ∨ (∃ props, f.index "properties" = .ok props
          ∧ f.index "geometry" = .error m)
      ∨ (∃ props geom, f.index "properties" = .ok props
          ∧ f.index "geometry" = .ok geom
          ∧ geom.index "coordinates" = .error m)) :
    (∃ m', search_places req http = .crash m')
    ∧ ∀ d, search_places req http ≠ .httpError 500 d := by
  have hfbad : ∃ m', projectFeature f = .error m' := by
    rcases hbad with hb | ⟨props, hp, hb⟩ | ⟨props, geom, hp, hg, hb⟩
    · exact ⟨m, by simp [projectFeature, hb, bindError]⟩
    · exact ⟨m, by simp [projectFeature, hp, hb, bindOk, bindError]⟩
    · exact ⟨m, by simp [projectFeature, hp, hg, hb, bindOk, bindError]⟩
  obtain ⟨m', hm'⟩ := projectList_error_of_mem fs f hmem hfbad
  have hcrash : search_places req http = .crash m' := by
    unfold search_places
    rw [h]
    exact searchHandlerBody_crash_arr fs m' hm'
  exact ⟨⟨m', hcrash⟩, fun d hd => by rw [hcrash] at hd; cases hd⟩

/-- Witness for C10: upstream answers 200 with one feature `{}`; the
`/search` endpoint crashes instead of producing a structured response. -/
theorem C10_witness :
    ∃ m', search_places ⟨"Berlin", none, none⟩
        (fun _ => .response 200 (.ok (Json.obj [("features",
          Json.arr [Json.obj []])])))
      = SearchOutcome.crash m' :=
  (C10_unguarded_projection_crash ⟨"Berlin", none, none⟩
    (fun _ => .response 200 (.ok (Json.obj [("features",
      Json.arr [Json.obj []])])))
    [Json.obj []] (Json.obj []) "KeyError: properties" rfl
    (List.mem_singleton.mpr rfl) (Or.inl rfl)).1

/-- Counterexample for C4: the caller supplies `limit=0`, yet the
upstream query parameters carry no `limit` key — Python's `if limit:`
treats the supplied `0` like `None`. -/
theorem C4_counterexample :
    (Option.some (0 : Int)).isSome = true
    ∧ (search_place_params "Berlin" (some 0) none).lookup "limit" = none :=
  ⟨rfl, rfl⟩

/-- C4 (amended): the upstream query parameters of a place search always
contain `q` with the query; they contain `limit` exactly when a nonzero
limit was supplied, and `lang` exactly when a nonempty language was
supplied (Python truthiness drops `limit=0` and `lang=""` exactly like an
absent value); when present, the supplied values pass through
unchanged. -/
theorem C4_amended_params_truthiness (q : String) (lim : Option Int)
    (lang : Option String) :
    ((search_place_params q lim lang).lookup "q" = some (Json.str q))
    ∧ (((search_place_params q lim lang).lookup "limit").isSome
        ↔ ∃ n, lim = some n ∧ n ≠ 0)
    ∧ (((search_place_params q lim lang).lookup "lang").isSome
        ↔ ∃ s, lang = some s ∧ s ≠ "")
    ∧ (∀ n, lim = some n → n ≠ 0 →
        (search_place_params q lim lang).lookup "limit" = some (Json.num n))
    ∧ (∀ s, lang = some s → s ≠ "" →
        (search_place_params q lim lang).lookup "lang" = some (Json.str s)) := by
  rcases lim with _ | n <;> rcases lang with _ | s
  · simp [search_place_params, List.lookup]
  · by_cases hs : s = "" <;> simp [search_place_params, List.lookup, hs]
  · by_cases hn : n = 0 <;> simp [search_place_params, List.lookup, hn]
  · by_cases hn : n = 0 <;> by_cases hs : s = "" <;>
      simp [search_place_params, List.lookup, hn, hs]

/-- Witness for C4 (amended): with `limit=2` and `lang="en"` supplied,
all three parameters are sent with the supplied values. -/
theorem C4_witness :
    (search_place_params "Berlin" (some 2) (some "en")).lookup "q"
        = some (Json.str "Berlin")
    ∧ (search_place_params "Berlin" (some 2) (some "en")).lookup "limit"
        = some (Json.num 2)
    ∧ (search_place_params "Berlin" (some 2) (some "en")).lookup "lang"
        = some (Json.str "en") := by
  have h := C4_amended_params_truthiness "Berlin" (some 2) (some "en")
  exact ⟨h.1, h.2.2.2.1 2 rfl (by decide), h.2.2.2.2 "en" rfl (by decide)⟩

/-- C5: for each of the three upstream operations, a non-2xx upstream
status is propagated to the caller as exactly that status code, with a
detail embedding the `httpx.HTTPStatusError` text. -/
theorem C5_upstream_status_propagation (http : Upstream) (q : String)
    (lim : Option Int) (lang : Option String) (lat lon : Int)
    (status : Nat) (body : Except String Json)
    (hst : is_success status = false) :
    (http ⟨BASE_URL ++ "/api/", search_place_params q lim lang⟩
        = .response status body →
      search_place q lim lang http
        = .error ⟨status, "Geocoding service error: "
            ++ httpStatusErrorText status⟩)
    ∧ (http ⟨BASE_URL ++ "/api/", search_with_location_params q lat lon⟩
        = .response status body →
      search_with_location q lat lon http
        = .error ⟨status, "Geocoding service error: "
            ++ httpStatusErrorText status⟩)
    ∧ (http ⟨BASE_URL ++ "/reverse", reverse_geocode_params lat lon⟩
        = .response status body →
      reverse_geocode lat lon http
        = .error ⟨status, "Geocoding service error: "
            ++ httpStatusErrorText status⟩) := by
  refine ⟨fun hr => ?_, fun hr => ?_, fun hr => ?_⟩
  · simp [search_place, runUpstream, hr, hst, handleExcept, bindError]
  · simp [search_with_location, runUpstream, hr, hst, handleExcept,
      bindError]
  · simp [reverse_geocode, runUpstream, hr, hst, handleExcept, bindError]

/-- Witness for C5: a constant 503 upstream is surfaced as 503 by all
three operations. -/
theorem C5_witness :
    search_place "Berlin" none none (fun _ => .response 503 (.ok Json.null))
      = .error ⟨503, "Geocoding service error: " ++ httpStatusErrorText 503⟩
    ∧ search_with_location "Berlin" 52 13
        (fun _ => .response 503 (.ok Json.null))
      = .error ⟨503, "Geocoding service error: " ++ httpStatusErrorText 503⟩
    ∧ reverse_geocode 52 13 (fun _ => .response 503 (.ok Json.null))
      = .error ⟨503, "Geocoding service error: " ++ httpStatusErrorText 503⟩ := by
  have h := C5_upstream_status_propagation
    (fun _ => .response 503 (.ok Json.null)) "Berlin" none none 52 13
    503 (.ok Json.null) rfl
  exact ⟨h.1 rfl, h.2.1 rfl, h.2.2 rfl⟩

/-- C6: for each of the three operations, a failure other than a non-2xx
status — the transport raising (connection failure, timeout), or a 2xx
response whose body fails to decode — yields a 500 whose detail embeds
the exception text. -/
theorem C6_other_failures_500 (http : Upstream) (q : String)
    (lim : Option Int) (lang : Option String) (lat lon : Int)
    (msg : String) (status : Nat) (hst : is_success status = true) :
    (http ⟨BASE_URL ++ "/api/", search_place_params q lim lang⟩
        = .failure msg →
      search_place q lim lang http
        = .error ⟨500, "Unexpected error: " ++ msg⟩)
    ∧ (http ⟨BASE_URL ++ "/api/", search_with_location_params q lat lon⟩
        = .failure msg →
      search_with_location q lat lon http
        = .error ⟨500, "Unexpected error: " ++ msg⟩)
    ∧ (http ⟨BASE_URL ++ "/reverse", reverse_geocode_params lat lon⟩
        = .failure msg →
      reverse_geocode lat lon http
        = .error ⟨500, "Unexpected error: " ++ msg⟩)
    ∧ (http ⟨BASE_URL ++ "/api/", search_place_params q lim lang⟩
        = .response status (.error msg) →
      search_place q lim lang http
        = .error ⟨500, "Unexpected error: " ++ msg⟩)
    ∧ (http ⟨BASE_URL ++ "/api/", search_with_location_params q lat lon⟩
        = .response status (.error msg) →
      search_with_location q lat lon http
        = .error ⟨500, "Unexpected error: " ++ msg⟩)
    ∧ (http ⟨BASE_URL ++ "/reverse", reverse_geocode_params lat lon⟩
        = .response status (.error msg) →
      reverse_geocode lat lon http
        = .error ⟨500, "Unexpected error: " ++ msg⟩) := by
  refine ⟨fun hr => ?_, fun hr => ?_, fun hr => ?_,
    fun hr => ?_, fun hr => ?_, fun hr => ?_⟩
  · simp [search_place, runUpstream, hr, handleExcept, bindError]
  · simp [search_with_location, runUpstream, hr, handleExcept, bindError]
  · simp [reverse_geocode, runUpstream, hr, handleExcept, bindError]
  · simp [search_place, runUpstream, hr, hst, handleExcept, bindError]
  · simp [search_with_location, runUpstream, hr, hst, handleExcept,
      bindError]
  · simp [reverse_geocode, runUpstream, hr, hst, handleExcept, bindError]

/-- Witness for C6: an unreachable upstream gives 500 with the connection
error embedded, for all three operations; a 200 with an undecodable body
gives 500 with the decode error embedded. -/
theorem C6_witness :
    search_place "Berlin" none none (fun _ => .failure "Connection refused")
      = .error ⟨500, "Unexpected error: Connection refused"⟩
    ∧ search_with_location "Berlin" 52 13
        (fun _ => .failure "Connection refused")
      = .error ⟨500, "Unexpected error: Connection refused"⟩
    ∧ reverse_geocode 52 13 (fun _ => .failure "Connection refused")
      = .error ⟨500, "Unexpected error: Connection refused"⟩
    ∧ search_place "Berlin" none none
        (fun _ => .response 200 (.error "Expecting value"))
      = .error ⟨500, "Unexpected error: Expecting value"⟩ := by
  have h1 := C6_other_failures_500 (fun _ => .failure "Connection refused")
    "Berlin" none none 52 13 "Connection refused" 200 rfl
  have h2 := C6_other_failures_500
    (fun _ => .response 200 (.error "Expecting value"))
    "Berlin" none none 52 13 "Expecting value" 200 rfl
  exact ⟨h1.1 rfl, h1.2.1 rfl, h1.2.2.1 rfl, h2.2.2.2.1 rfl⟩

/-- C7: a location-biased search always sends `q`, `lat` and `lon` — none
of them optional — and the GET endpoint rejects a request missing `lat`
or `lon` before any upstream call: the outcome is the validation error
and does not depend on the upstream at all. -/
theorem C7_location_params_required (q : String) (lat lon : Int)
    (qo : Option String) (lato lono : Option Int) (http1 http2 : Upstream)
    (hmiss : lato = none ∨ lono = none) :
    ((search_with_location_params q lat lon).lookup "q" = some (Json.str q)
      ∧ (search_with_location_params q lat lon).lookup "lat"
          = some (Json.num lat)
      ∧ (search_with_location_params q lat lon).lookup "lon"
          = some (Json.num lon))
    ∧ search_with_location_priority_get qo lato lono http1
        = .validationError
    ∧ search_with_location_priority_get qo lato lono http1
        = search_with_location_priority_get qo lato lono http2 := by
  have hval : ∀ (h : Upstream),
      search_with_location_priority_get qo lato lono h = .validationError := by
    intro h
    rcases hmiss with hm | hm
    · subst hm; rcases qo with _ | q' <;> rfl
    · subst hm; rcases qo with _ | q' <;> rcases lato with _ | a <;> rfl
  exact ⟨⟨rfl, rfl, rfl⟩, hval http1, (hval http1).trans (hval http2).symm⟩

/-- Witness for C7: a GET request with `lat` absent is rejected, with the
same outcome under two different upstreams (one failing, one
succeeding). -/
theorem C7_witness :
    ((search_with_location_params "Berlin" 52 13).lookup "q"
        = some (Json.str "Berlin")
      ∧ (search_with_location_params "Berlin" 52 13).lookup "lat"
          = some (Json.num 52)
      ∧ (search_with_location_params "Berlin" 52 13).lookup "lon"
          = some (Json.num 13))
    ∧ search_with_location_priority_get (some "Berlin") none (some 13)
        (fun _ => .failure "Connection refused") = .validationError
    ∧ search_with_location_priority_get (some "Berlin") none (some 13)
        (fun _ => .failure "Connection refused")
      = search_with_location_priority_get (some "Berlin") none (some 13)
        (fun _ => .response 200 (.ok Json.null)) :=
  C7_location_params_required "Berlin" 52 13 (some "Berlin") none (some 13)
    (fun _ => .failure "Connection refused")
    (fun _ => .response 200 (.ok Json.null)) (Or.inl rfl)

/-- C8: a reverse-geocode request whose upstream response carries a
non-empty feature list answers with the raw `properties` mapping of the
first feature — unwrapped, not list-wrapped, not projected into the
`PlaceResponse` shape. -/
theorem C8_reverse_first_properties (lat lon : Int) (http : Upstream)
    (status : Nat) (j f0 props : Json) (fs : List Json)
    (hresp : http ⟨BASE_URL ++ "/reverse", reverse_geocode_params lat lon⟩
      = .response status (.ok j))
    (hst : is_success status = true)
    (hfeat : j.index "features" = .ok (Json.arr (f0 :: fs)))
    (hprops : f0.index "properties" = .ok props) :
    reverse_geocode lat lon http = .ok props
    ∧ reverse_geocode_endpoint ⟨lat, lon⟩ http = .ok props := by
  have h1 : reverse_geocode lat lon http = .ok props := by
    simp [reverse_geocode, runUpstream, hresp, hst, liftPy, hfeat,
      Json.falsy, Json.indexNat, hprops, handleExcept, bindOk, bindError]
  exact ⟨h1, by simp [reverse_geocode_endpoint, h1]⟩

/-- Witness for C8: with one feature upstream, `/reverse` answers that
feature's properties object itself. -/
theorem C8_witness :
    reverse_geocode 52 13
        (fun _ => .response 200 (.ok (Json.obj [("features", Json.arr
          [Json.obj [("properties",
            Json.obj [("name", Json.str "Berlin")])]])])))
      = .ok (Json.obj [("name", Json.str "Berlin")])
    ∧ reverse_geocode_endpoint ⟨52, 13⟩
        (fun _ => .response 200 (.ok (Json.obj [("features", Json.arr
          [Json.obj [("properties",
            Json.obj [("name", Json.str "Berlin")])]])])))
      = .ok (Json.obj [("name", Json.str "Berlin")]) :=
  C8_reverse_first_properties 52 13
    (fun _ => .response 200 (.ok (Json.obj [("features", Json.arr
      [Json.obj [("properties", Json.obj [("name", Json.str "Berlin")])]])])))
    200 (Json.obj [("features", Json.arr
      [Json.obj [("properties", Json.obj [("name", Json.str "Berlin")])]])])
    (Json.obj [("properties", Json.obj [("name", Json.str "Berlin")])])
    (Json.obj [("name", Json.str "Berlin")]) [] rfl rfl rfl rfl
